import Mathlib

/-!
Verification of the precession session renderer (src/main.rs).

The renderer walks a declarative Session → Window* → Pane* tree and issues
an ordered sequence of tmux control operations. We embed each tmux
invocation as a constructor of `Op`, each `render`/`create`/`finalize`
method as a pure function returning the list of operations it emits, and,
for the failure semantics, a fallible variant mirroring the Rust control
flow (each external call may fail, aborting via the question-mark operator).
-/

namespace Precession

/-- Sentinel placeholder window name (source constant INITIAL_WINDOW = "999"). -/
def INITIAL_WINDOW : String := "999"

/-- Layout enumeration (source: enum Layout). -/
inductive Layout where
  | Tiled
  | EvenHorizontal
  | EvenVertical
  | MainHorizontal
  | MainVertical
deriving DecidableEq

/-- Canonical string form (source: impl ToString for Layout). -/
def Layout.toString : Layout → String
  | .Tiled => "tiled"
  | .EvenHorizontal => "even-horizontal"
  | .EvenVertical => "even-vertical"
  | .MainHorizontal => "main-horizontal"
  | .MainVertical => "main-vertical"

/-- Decoding from the external string form (source: impl TryFrom of String for
Layout). The arm for "main-vertical" returns MainHorizontal, exactly as in the
source. -/
def Layout.tryFrom (str : String) : Except String Layout :=
  match str with
  | "tiled" => .ok .Tiled
  | "even-vertical" => .ok .EvenVertical
  | "even-horizontal" => .ok .EvenHorizontal
  | "main-vertical" => .ok .MainHorizontal
  | "main-horizontal" => .ok .MainHorizontal
  | _ => .error "Not a valid split direction"

/-- Default layout (source: impl Default for Layout). -/
def Layout.default : Layout := .EvenHorizontal

/-- Field defaulting for the layout field of a window definition: the serde
attribute on Window.layout applies Layout and its Default impl when the field
is absent, and TryFrom of the string when present. -/
def decodeLayoutField (s : Option String) : Except String Layout :=
  match s with
  | none => .ok Layout.default
  | some str => Layout.tryFrom str

/-- One external tmux control operation, one constructor per distinct
invocation shape in the source. -/
inductive Op where
  | newSession (name : String) (initialWindow : String) (root : Option String)
  | newWindow (name : Option String) (root : Option String)
  | sendKeys (cmd : String)
  | splitWindow
  | selectLayout (layout : String)
  | killWindow (target : String)
  | moveWindowRenumber
  | attach (target : String)
deriving DecidableEq

def Op.isNewWindow : Op → Bool
  | .newWindow _ _ => true
  | _ => false

def Op.isSplit : Op → Bool
  | .splitWindow => true
  | _ => false

def Op.isSelectLayout : Op → Bool
  | .selectLayout _ => true
  | _ => false

def Op.isSendKeys : Op → Bool
  | .sendKeys _ => true
  | _ => false

def Op.isKillWindow : Op → Bool
  | .killWindow _ => true
  | _ => false

/-- Source: struct Pane(Option String) — a single optional startup command. -/
structure Pane where
  cmd : Option String
deriving DecidableEq

/-- Source: struct Window. Paths are modelled as strings. -/
structure Window where
  name : Option String
  layout : Layout
  root : Option String
  cmd : Option String
  panes : Option (List Pane)
deriving DecidableEq

/-- Source: struct Session. -/
structure Session where
  name : String
  root : Option String
  windows : List Window
deriving DecidableEq

/-- Number of panes a window declares (0 when the panes field is absent). -/
def Window.numPanes (w : Window) : Nat := (w.panes.getD []).length

/-- Source: Pane::render — send the command keystrokes when present. -/
def Pane.render (p : Pane) : List Op :=
  match p.cmd with
  | some c => [.sendKeys c]
  | none => []

/-- Source: Pane::create — a split-window invocation. -/
def Pane.create (_ : Pane) : List Op := [.splitWindow]

/-- Source: Window::create — one new-window invocation carrying the optional
name and root flags. -/
def Window.create (w : Window) : List Op := [.newWindow w.name w.root]

/-- The pane loop of Window::render: for (i, pane) in panes.enumerate, split
when i > 0, then render the pane. -/
def panesTrace : Nat → List Pane → List Op
  | _, [] => []
  | i, p :: rest =>
    (if i > 0 then p.create else []) ++ p.render ++ panesTrace (i + 1) rest

/-- Source: Window::render — create, optional top-level cmd, pane loop,
select-layout. -/
def Window.render (w : Window) : List Op :=
  w.create
  ++ (match w.cmd with
      | some c => [.sendKeys c]
      | none => [])
  ++ (match w.panes with
      | some ps => panesTrace 0 ps
      | none => [])
  ++ [.selectLayout w.layout.toString]

/-- Source: Session::create — tmux new -d -s name -n INITIAL_WINDOW [-c root]. -/
def Session.create (s : Session) : List Op :=
  [.newSession s.name INITIAL_WINDOW s.root]

/-- The window loop of Session::render. -/
def windowsTrace : List Window → List Op
  | [] => []
  | w :: rest => w.render ++ windowsTrace rest

/-- Source: Session::finalize — kill the sentinel window, renumber, attach. -/
def Session.finalize (s : Session) : List Op :=
  [.killWindow (s.name ++ ":" ++ INITIAL_WINDOW),
   .moveWindowRenumber,
   .attach (s.name ++ ":1")]

/-- Source: Session::render — create, all windows in order, finalize. -/
def Session.render (s : Session) : List Op :=
  s.create ++ windowsTrace s.windows ++ s.finalize

/-!
Fallible execution. Each tmux invocation either succeeds (appending its
operation to the trace of operations attempted so far) or fails, in which
case the surrounding function aborts immediately, as the question-mark
operator does in the source. The oracle `fails` says which operations the
external multiplexer rejects; the error value carries the trace attempted
up to and including the failing operation.
-/

/-- Attempt one tmux invocation. -/
def tmux (fails : Op → Bool) (op : Op) (tr : List Op) :
    Except (List Op) (List Op) :=
  if fails op then .error (tr ++ [op]) else .ok (tr ++ [op])

/-- Fallible Pane::render. -/
def Pane.renderE (fails : Op → Bool) (p : Pane) (tr : List Op) :
    Except (List Op) (List Op) :=
  match p.cmd with
  | some c => tmux fails (.sendKeys c) tr
  | none => .ok tr

/-- Fallible Pane::create. -/
def Pane.createE (fails : Op → Bool) (_ : Pane) (tr : List Op) :
    Except (List Op) (List Op) :=
  tmux fails .splitWindow tr

/-- Fallible Window::create. -/
def Window.createE (fails : Op → Bool) (w : Window) (tr : List Op) :
    Except (List Op) (List Op) :=
  tmux fails (.newWindow w.name w.root) tr

/-- Fallible pane loop of Window::render. -/
def panesLoopE (fails : Op → Bool) : Nat → List Pane → List Op →
    Except (List Op) (List Op)
  | _, [], tr => .ok tr
  | i, p :: rest, tr => do
    let tr1 ← if i > 0 then p.createE fails tr else .ok tr
    let tr2 ← p.renderE fails tr1
    panesLoopE fails (i + 1) rest tr2

/-- Fallible Window::render. -/
def Window.renderE (fails : Op → Bool) (w : Window) (tr : List Op) :
    Except (List Op) (List Op) := do
  let tr1 ← w.createE fails tr
  let tr2 ← match w.cmd with
    | some c => tmux fails (.sendKeys c) tr1
    | none => .ok tr1
  let tr3 ← match w.panes with
    | some ps => panesLoopE fails 0 ps tr2
    | none => .ok tr2
  tmux fails (.selectLayout w.layout.toString) tr3

/-- Fallible Session::create. -/
def Session.createE (fails : Op → Bool) (s : Session) (tr : List Op) :
    Except (List Op) (List Op) :=
  tmux fails (.newSession s.name INITIAL_WINDOW s.root) tr

/-- Fallible window loop of Session::render. -/
def windowsLoopE (fails : Op → Bool) : List Window → List Op →
    Except (List Op) (List Op)
  | [], tr => .ok tr
  | w :: rest, tr => do
    let tr1 ← w.renderE fails tr
    windowsLoopE fails rest tr1

/-- Fallible Session::finalize. -/
def Session.finalizeE (fails : Op → Bool) (s : Session) (tr : List Op) :
    Except (List Op) (List Op) := do
  let tr1 ← tmux fails (.killWindow (s.name ++ ":" ++ INITIAL_WINDOW)) tr
  let tr2 ← tmux fails .moveWindowRenumber tr1
  tmux fails (.attach (s.name ++ ":1")) tr2

/-- Fallible Session::render. -/
def Session.renderE (fails : Op → Bool) (s : Session) (tr : List Op) :
    Except (List Op) (List Op) := do
  let tr1 ← s.createE fails tr
  let tr2 ← windowsLoopE fails s.windows tr1
  s.finalizeE fails tr2

/-- Sequential attempted execution of a fixed operation list: the reference
semantics the fallible renderer is proved to follow. -/
def runOps (fails : Op → Bool) : List Op → List Op →
    Except (List Op) (List Op)
  | [], tr => .ok tr
  | op :: rest, tr =>
    if fails op then .error (tr ++ [op]) else runOps fails rest (tr ++ [op])

/-- Concrete window used to evaluate the theorems: named "edit", default
layout, a top-level command and no panes (from the spec scenario). -/
def sampleWindowEdit : Window :=
  ⟨some "edit", Layout.default, none, some "vim", none⟩

/-- Concrete window used to evaluate the theorems: named "run", default
layout, no top-level command, two panes (from the spec scenario). -/
def sampleWindowRun : Window :=
  ⟨some "run", Layout.default, none, none,
   some [⟨some "npm start"⟩, ⟨some "npm test"⟩]⟩

/-- Concrete session used to evaluate the theorems (the spec scenario). -/
def sampleSession : Session :=
  ⟨"dev", none, [sampleWindowEdit, sampleWindowRun]⟩

/-! Bridging lemmas: the fallible renderer follows `runOps` on the pure trace. -/

lemma runOps_nil (fails : Op → Bool) (tr : List Op) :
    runOps fails [] tr = .ok tr := rfl

lemma ok_bind (g : List Op → Except (List Op) (List Op)) (tr : List Op) :
    ((Except.ok tr : Except (List Op) (List Op)) >>= g) = g tr := rfl

lemma runOps_append (fails : Op → Bool) (a b : List Op) :
    ∀ tr, runOps fails (a ++ b) tr = (runOps fails a tr).bind (runOps fails b) := by
  induction a with
  | nil => intro tr; simp [runOps, Except.bind]
  | cons op rest ih =>
    intro tr
    simp only [List.cons_append, runOps]
    by_cases h : fails op <;> simp [h, Except.bind, ih]

lemma bind_runOps_eq (fails : Op → Bool) (a b : List Op) (tr : List Op) :
    (runOps fails a tr >>= runOps fails b) = runOps fails (a ++ b) tr :=
  (runOps_append fails a b tr).symm

lemma tmux_eq_runOps (fails : Op → Bool) (op : Op) (tr : List Op) :
    tmux fails op tr = runOps fails [op] tr := by
  by_cases h : fails op <;> simp [tmux, runOps, h]

lemma paneRenderE_eq_runOps (fails : Op → Bool) (p : Pane) (tr : List Op) :
    p.renderE fails tr = runOps fails p.render tr := by
  cases h : p.cmd <;> simp [Pane.renderE, Pane.render, h, tmux_eq_runOps, runOps]

lemma paneCreateE_eq_runOps (fails : Op → Bool) (p : Pane) (tr : List Op) :
    p.createE fails tr = runOps fails p.create tr := by
  simp [Pane.createE, Pane.create, tmux_eq_runOps]

lemma panesLoopE_eq_runOps (fails : Op → Bool) :
    ∀ (ps : List Pane) (i : Nat) (tr : List Op),
      panesLoopE fails i ps tr = runOps fails (panesTrace i ps) tr := by
  intro ps
  induction ps with
  | nil => intro i tr; simp [panesLoopE, panesTrace, runOps]
  | cons p rest ih =>
    intro i tr
    by_cases h : i > 0
    · simp [panesLoopE, panesTrace, h, paneCreateE_eq_runOps,
        paneRenderE_eq_runOps, ih, bind_runOps_eq, List.append_assoc]
    · simp [panesLoopE, panesTrace, h, ok_bind, paneRenderE_eq_runOps, ih,
        bind_runOps_eq, List.append_assoc]

lemma windowCreateE_eq_runOps (fails : Op → Bool) (w : Window) (tr : List Op) :
    w.createE fails tr = runOps fails w.create tr := by
  simp [Window.createE, Window.create, tmux_eq_runOps]

lemma windowRenderE_eq_runOps (fails : Op → Bool) (w : Window) (tr : List Op) :
    w.renderE fails tr = runOps fails w.render tr := by
  cases hc : w.cmd <;> cases hp : w.panes <;>
    simp [Window.renderE, Window.render, hc, hp, windowCreateE_eq_runOps,
      tmux_eq_runOps, panesLoopE_eq_runOps, ok_bind, bind_runOps_eq,
      runOps_nil, List.append_assoc]

lemma windowsLoopE_eq_runOps (fails : Op → Bool) :
    ∀ (ws : List Window) (tr : List Op),
      windowsLoopE fails ws tr = runOps fails (windowsTrace ws) tr := by
  intro ws
  induction ws with
  | nil => intro tr; simp [windowsLoopE, windowsTrace, runOps]
  | cons w rest ih =>
    intro tr
    simp [windowsLoopE, windowsTrace, windowRenderE_eq_runOps, ih,
      bind_runOps_eq]

lemma sessionCreateE_eq_runOps (fails : Op → Bool) (s : Session) (tr : List Op) :
    s.createE fails tr = runOps fails s.create tr := by
  simp [Session.createE, Session.create, tmux_eq_runOps]

lemma sessionFinalizeE_eq_runOps (fails : Op → Bool) (s : Session) (tr : List Op) :
    s.finalizeE fails tr = runOps fails s.finalize tr := by
  simp [Session.finalizeE, Session.finalize, tmux_eq_runOps, bind_runOps_eq]

lemma sessionRenderE_eq_runOps (fails : Op → Bool) (s : Session) (tr : List Op) :
    s.renderE fails tr = runOps fails (s.render) tr := by
  simp [Session.renderE, Session.render, sessionCreateE_eq_runOps,
    windowsLoopE_eq_runOps, sessionFinalizeE_eq_runOps, bind_runOps_eq,
    List.append_assoc]

/-! Structural lemmas on the pure traces. -/

lemma paneRender_sendKeys (p : Pane) :
    ∀ op ∈ p.render, op.isSendKeys = true := by
  cases h : p.cmd <;> simp [Pane.render, h, Op.isSendKeys]

lemma panesTrace_ops (ps : List Pane) :
    ∀ (i : Nat), ∀ op ∈ panesTrace i ps,
      op.isSplit = true ∨ op.isSendKeys = true := by
  induction ps with
  | nil => simp [panesTrace]
  | cons p rest ih =>
    intro i op hop
    simp only [panesTrace, List.mem_append] at hop
    rcases hop with (hop | hop) | hop
    · by_cases hi : i > 0
      · left
        simp only [if_pos hi, Pane.create, List.mem_singleton] at hop
        subst hop
        rfl
      · simp [if_neg hi] at hop
    · right
      exact paneRender_sendKeys p op hop
    · exact ih (i + 1) op hop

lemma panesTrace_countP_zero (q : Op → Bool)
    (hsplit : q .splitWindow = false) (hsend : ∀ c, q (.sendKeys c) = false)
    (i : Nat) (ps : List Pane) : (panesTrace i ps).countP q = 0 := by
  rw [List.countP_eq_zero]
  intro op hop
  rcases panesTrace_ops ps i op hop with h | h <;>
    cases op <;> simp_all [Op.isSplit, Op.isSendKeys]

lemma paneRender_countP_split (p : Pane) : p.render.countP Op.isSplit = 0 := by
  cases h : p.cmd <;>
    simp [Pane.render, h, List.countP_cons, List.countP_nil, Op.isSplit]

lemma panesTrace_countP_split_pos (ps : List Pane) :
    ∀ i : Nat, 0 < i → (panesTrace i ps).countP Op.isSplit = ps.length := by
  induction ps with
  | nil => simp [panesTrace]
  | cons p rest ih =>
    intro i hi
    simp [panesTrace, hi, List.countP_append, Pane.create,
      paneRender_countP_split, ih (i + 1) (by omega), List.countP_cons,
      Op.isSplit, Nat.add_comm]

lemma panesTrace_countP_split_zero (ps : List Pane) :
    (panesTrace 0 ps).countP Op.isSplit = ps.length - 1 := by
  cases ps with
  | nil => simp [panesTrace]
  | cons p rest =>
    simp [panesTrace, List.countP_append, paneRender_countP_split,
      panesTrace_countP_split_pos rest 1 (by omega)]

lemma paneRender_filter_sendKeys (p : Pane) :
    p.render.filter Op.isSendKeys = (p.cmd.map Op.sendKeys).toList := by
  cases h : p.cmd <;> simp [Pane.render, h, Op.isSendKeys]

lemma panesTrace_filter_sendKeys (ps : List Pane) :
    ∀ i : Nat, (panesTrace i ps).filter Op.isSendKeys
      = ps.filterMap (fun p => p.cmd.map Op.sendKeys) := by
  induction ps with
  | nil => simp [panesTrace]
  | cons p rest ih =>
    intro i
    have hcr : (if i > 0 then p.create else []).filter Op.isSendKeys = [] := by
      by_cases hi : i > 0 <;> simp [hi, Pane.create, Op.isSendKeys]
    cases h : p.cmd <;>
      simp [panesTrace, List.filter_append, hcr, paneRender_filter_sendKeys,
        ih (i + 1), h]

lemma panesTrace_pos_eq (ps : List Pane) :
    ∀ i : Nat, 0 < i →
      panesTrace i ps = (ps.map (fun p => Op.splitWindow :: p.render)).flatten := by
  induction ps with
  | nil => simp [panesTrace]
  | cons p rest ih =>
    intro i hi
    simp [panesTrace, hi, Pane.create, ih (i + 1) (by omega)]

lemma window_render_countP_nw (w : Window) :
    w.render.countP Op.isNewWindow = 1 := by
  have hps : ∀ i ps, (panesTrace i ps).countP Op.isNewWindow = 0 :=
    fun i ps => panesTrace_countP_zero _ rfl (fun _ => rfl) i ps
  cases hc : w.cmd <;> cases hp : w.panes <;>
    simp [Window.render, Window.create, hc, hp, List.countP_append,
      List.countP_cons, Op.isNewWindow, hps]

lemma window_render_countP_sl (w : Window) :
    w.render.countP Op.isSelectLayout = 1 := by
  have hps : ∀ i ps, (panesTrace i ps).countP Op.isSelectLayout = 0 :=
    fun i ps => panesTrace_countP_zero _ rfl (fun _ => rfl) i ps
  cases hc : w.cmd <;> cases hp : w.panes <;>
    simp [Window.render, Window.create, hc, hp, List.countP_append,
      List.countP_cons, Op.isSelectLayout, hps]

lemma window_render_countP_kill (w : Window) :
    w.render.countP Op.isKillWindow = 0 := by
  have hps : ∀ i ps, (panesTrace i ps).countP Op.isKillWindow = 0 :=
    fun i ps => panesTrace_countP_zero _ rfl (fun _ => rfl) i ps
  cases hc : w.cmd <;> cases hp : w.panes <;>
    simp [Window.render, Window.create, hc, hp, List.countP_append,
      List.countP_cons, Op.isKillWindow, hps]

lemma window_render_countP_split (w : Window) :
    w.render.countP Op.isSplit = w.numPanes - 1 := by
  cases hc : w.cmd <;> cases hp : w.panes <;>
    simp [Window.render, Window.create, Window.numPanes, hc, hp,
      List.countP_append, List.countP_cons, Op.isSplit,
      panesTrace_countP_split_zero]

lemma window_render_head (w : Window) :
    w.render.head? = some (.newWindow w.name w.root) := rfl

lemma window_render_getLast (w : Window) :
    w.render.getLast? = some (.selectLayout w.layout.toString) := by
  simp [Window.render]

lemma window_render_filter_nw (w : Window) :
    w.render.filter Op.isNewWindow = [Op.newWindow w.name w.root] := by
  have hps : ∀ i ps, (panesTrace i ps).filter Op.isNewWindow = [] := by
    intro i ps
    rw [List.filter_eq_nil_iff]
    intro op hop
    rcases panesTrace_ops ps i op hop with h | h <;>
      cases op <;> simp_all [Op.isSplit, Op.isSendKeys, Op.isNewWindow]
  cases hc : w.cmd <;> cases hp : w.panes <;>
    simp [Window.render, Window.create, hc, hp, List.filter_append,
      Op.isNewWindow, hps]

lemma window_render_filter_sendKeys (w : Window) :
    w.render.filter Op.isSendKeys
      = (w.cmd.map Op.sendKeys).toList
        ++ (w.panes.getD []).filterMap (fun p => p.cmd.map Op.sendKeys) := by
  cases hc : w.cmd <;> cases hp : w.panes <;>
    simp [Window.render, Window.create, hc, hp, List.filter_append,
      Op.isSendKeys, panesTrace_filter_sendKeys]

lemma windowsTrace_countP (q : Op → Bool) :
    ∀ ws : List Window,
      (windowsTrace ws).countP q = (ws.map (fun w => w.render.countP q)).sum := by
  intro ws
  induction ws with
  | nil => simp [windowsTrace]
  | cons w rest ih => simp [windowsTrace, List.countP_append, ih]

lemma windowsTrace_filter_nw :
    ∀ ws : List Window,
      (windowsTrace ws).filter Op.isNewWindow
        = ws.map (fun w => Op.newWindow w.name w.root) := by
  intro ws
  induction ws with
  | nil => simp [windowsTrace]
  | cons w rest ih =>
    simp [windowsTrace, List.filter_append, window_render_filter_nw, ih]

lemma sum_map_one (ws : List Window) :
    (ws.map (fun _ => (1 : Nat))).sum = ws.length := by
  induction ws <;> simp_all [Nat.add_comm]

/-- Characterisation of a failed run: the attempted trace is the plan up to
and including the first failing operation, and nothing after it. -/
lemma runOps_error (fails : Op → Bool) :
    ∀ (ops tr tr' : List Op), runOps fails ops tr = .error tr' →
      ∃ pre op post, ops = pre ++ op :: post ∧
        tr' = tr ++ (pre ++ [op]) ∧
        fails op = true ∧
        ∀ o ∈ pre, fails o = false := by
  intro ops
  induction ops with
  | nil => intro tr tr' h; simp [runOps] at h
  | cons op rest ih =>
    intro tr tr' h
    simp only [runOps] at h
    by_cases hf : fails op
    · rw [if_pos hf] at h
      refine ⟨[], op, rest, by simp, ?_, hf, by simp⟩
      simpa using (Except.error.inj h).symm
    · rw [if_neg hf] at h
      obtain ⟨pre, o, post, h1, h2, h3, h4⟩ := ih (tr ++ [op]) tr' h
      refine ⟨op :: pre, o, post, by simp [h1], by simp [h2], h3, ?_⟩
      intro x hx
      rcases List.mem_cons.mp hx with hx | hx
      · subst hx; simpa using hf
      · exact h4 x hx

/-- Characterisation of a successful run: every operation succeeded and the
trace is exactly the plan. -/
lemma runOps_ok (fails : Op → Bool) :
    ∀ (ops tr tr' : List Op), runOps fails ops tr = .ok tr' →
      tr' = tr ++ ops ∧ ∀ o ∈ ops, fails o = false := by
  intro ops
  induction ops with
  | nil =>
    intro tr tr' h
    simp only [runOps] at h
    exact ⟨by simpa using (Except.ok.inj h).symm, by simp⟩
  | cons op rest ih =>
    intro tr tr' h
    simp only [runOps] at h
    by_cases hf : fails op
    · rw [if_pos hf] at h; exact absurd h (by simp)
    · rw [if_neg hf] at h
      obtain ⟨h1, h2⟩ := ih (tr ++ [op]) tr' h
      refine ⟨by simp [h1], ?_⟩
      intro x hx
      rcases List.mem_cons.mp hx with hx | hx
      · subst hx; simpa using hf
      · exact h2 x hx

/-- A run in which no operation fails executes the whole plan. -/
lemma runOps_all_ok (ops : List Op) :
    ∀ tr, runOps (fun _ => false) ops tr = .ok (tr ++ ops) := by
  induction ops with
  | nil => intro tr; simp [runOps]
  | cons op rest ih => intro tr; simp [runOps, ih]

/-! Claim theorems. -/

/-- C1: for every session definition with N windows, the emitted operation
sequence contains exactly N window-creation operations and, per window,
exactly numPanes - 1 (truncated at 0) split operations and exactly one
layout-selection operation; within each window block the creation operation
comes first (so every split of the window follows its creation) and the
layout selection comes last (so it follows the last pane creation). -/
theorem c1_operation_counts (s : Session) :
    ((Session.render s).countP Op.isNewWindow = s.windows.length)
    ∧ ((Session.render s).countP Op.isSplit
        = (s.windows.map (fun w => w.numPanes - 1)).sum)
    ∧ ((Session.render s).countP Op.isSelectLayout = s.windows.length)
    ∧ ∀ w ∈ s.windows,
        w.render.countP Op.isSplit = w.numPanes - 1
        ∧ w.render.countP Op.isSelectLayout = 1
        ∧ w.render.head? = some (Op.newWindow w.name w.root)
        ∧ w.render.getLast? = some (Op.selectLayout w.layout.toString) := by
  refine ⟨?_, ?_, ?_, ?_⟩
  · simp [Session.render, Session.create, Session.finalize, List.countP_append,
      List.countP_cons, Op.isNewWindow, windowsTrace_countP,
      window_render_countP_nw, sum_map_one]
  · simp [Session.render, Session.create, Session.finalize, List.countP_append,
      List.countP_cons, Op.isSplit, windowsTrace_countP,
      window_render_countP_split]
  · simp [Session.render, Session.create, Session.finalize, List.countP_append,
      List.countP_cons, Op.isSelectLayout, windowsTrace_countP,
      window_render_countP_sl, sum_map_one]
  · intro w _
    exact ⟨window_render_countP_split w, window_render_countP_sl w,
      window_render_head w, window_render_getLast w⟩

/-- Witness for C1 at the concrete sample session. -/
theorem c1_operation_counts_witness :
    ((Session.render sampleSession).countP Op.isNewWindow
        = sampleSession.windows.length)
    ∧ ((Session.render sampleSession).countP Op.isSplit
        = (sampleSession.windows.map (fun w => w.numPanes - 1)).sum)
    ∧ ((Session.render sampleSession).countP Op.isSelectLayout
        = sampleSession.windows.length)
    ∧ ∀ w ∈ sampleSession.windows,
        w.render.countP Op.isSplit = w.numPanes - 1
        ∧ w.render.countP Op.isSelectLayout = 1
        ∧ w.render.head? = some (Op.newWindow w.name w.root)
        ∧ w.render.getLast? = some (Op.selectLayout w.layout.toString) :=
  c1_operation_counts sampleSession

/-- C2: window-creation operations appear in the declaration order of the
windows; within a window the send-keys operations are the window command
followed by the pane commands in declaration order; a window with panes
renders as creation, optional window command, first pane, then for each
later pane a split followed by that pane command, and the layout selection
last of all. -/
theorem c2_declaration_order (s : Session) :
    ((Session.render s).filter Op.isNewWindow
        = s.windows.map (fun w => Op.newWindow w.name w.root))
    ∧ (∀ w ∈ s.windows,
        w.render.filter Op.isSendKeys
          = (w.cmd.map Op.sendKeys).toList
            ++ (w.panes.getD []).filterMap (fun p => p.cmd.map Op.sendKeys))
    ∧ (∀ w ∈ s.windows, ∀ p ps, w.panes = some (p :: ps) →
        w.render = Op.newWindow w.name w.root
          :: ((w.cmd.map Op.sendKeys).toList
            ++ p.render
            ++ (ps.map (fun q => Op.splitWindow :: q.render)).flatten
            ++ [Op.selectLayout w.layout.toString]))
    ∧ (∀ w ∈ s.windows,
        w.render.getLast? = some (Op.selectLayout w.layout.toString)) := by
  refine ⟨?_, ?_, ?_, ?_⟩
  · simp [Session.render, Session.create, Session.finalize, List.filter_append,
      Op.isNewWindow, windowsTrace_filter_nw]
  · intro w _
    exact window_render_filter_sendKeys w
  · intro w _ p ps hp
    have h1 : panesTrace 0 (p :: ps)
        = p.render ++ (ps.map (fun q => Op.splitWindow :: q.render)).flatten := by
      simp [panesTrace, panesTrace_pos_eq ps 1 (by omega)]
    cases hc : w.cmd <;>
      simp [Window.render, Window.create, hp, hc, h1, List.append_assoc]
  · intro w _
    exact window_render_getLast w

/-- Witness for C2 at the concrete sample session. -/
theorem c2_declaration_order_witness :
    ((Session.render sampleSession).filter Op.isNewWindow
        = sampleSession.windows.map (fun w => Op.newWindow w.name w.root))
    ∧ (∀ w ∈ sampleSession.windows,
        w.render.filter Op.isSendKeys
          = (w.cmd.map Op.sendKeys).toList
            ++ (w.panes.getD []).filterMap (fun p => p.cmd.map Op.sendKeys))
    ∧ (∀ w ∈ sampleSession.windows, ∀ p ps, w.panes = some (p :: ps) →
        w.render = Op.newWindow w.name w.root
          :: ((w.cmd.map Op.sendKeys).toList
            ++ p.render
            ++ (ps.map (fun q => Op.splitWindow :: q.render)).flatten
            ++ [Op.selectLayout w.layout.toString]))
    ∧ (∀ w ∈ sampleSession.windows,
        w.render.getLast? = some (Op.selectLayout w.layout.toString)) :=
  c2_declaration_order sampleSession

/-- C3: the sentinel placeholder window rides on the very first operation
(the session creation), before any real window creation; the kill of the
sentinel addresses "name:999" and comes after the whole window block, which
contains every window creation and no kill; finalize then runs kill,
renumber and attach to "name:1", in that order, as the last three
operations. -/
theorem c3_sentinel_lifecycle (s : Session) :
    ((Session.render s).head?
        = some (Op.newSession s.name INITIAL_WINDOW s.root))
    ∧ (Session.render s
        = Op.newSession s.name INITIAL_WINDOW s.root
          :: (windowsTrace s.windows
            ++ [Op.killWindow (s.name ++ ":" ++ INITIAL_WINDOW),
                Op.moveWindowRenumber,
                Op.attach (s.name ++ ":1")]))
    ∧ ((windowsTrace s.windows).countP Op.isNewWindow = s.windows.length)
    ∧ ((windowsTrace s.windows).countP Op.isKillWindow = 0)
    ∧ ((Session.render s).countP Op.isKillWindow = 1) := by
  refine ⟨rfl, ?_, ?_, ?_, ?_⟩
  · simp [Session.render, Session.create, Session.finalize]
  · simp [windowsTrace_countP, window_render_countP_nw, sum_map_one]
  · simp [windowsTrace_countP, window_render_countP_kill]
  · simp [Session.render, Session.create, Session.finalize, List.countP_append,
      List.countP_cons, Op.isKillWindow, windowsTrace_countP,
      window_render_countP_kill]

/-- C4: the round trip fails on the code: encoding MainVertical gives
"main-vertical", but decoding "main-vertical" yields MainHorizontal, a
different variant, contradicting the intended decode("main-vertical") =
MainVertical. -/
theorem c4_main_vertical_divergence :
    Layout.tryFrom (Layout.toString Layout.MainVertical)
        = Except.ok Layout.MainHorizontal
    ∧ Layout.MainHorizontal ≠ Layout.MainVertical := by
  exact ⟨rfl, by decide⟩

/-- C5: every string other than the five the decoder matches is rejected
with the descriptive error, producing no variant. -/
theorem c5_unknown_layout_rejected (str : String)
    (h1 : str ≠ "tiled") (h2 : str ≠ "even-vertical")
    (h3 : str ≠ "even-horizontal") (h4 : str ≠ "main-vertical")
    (h5 : str ≠ "main-horizontal") :
    Layout.tryFrom str = Except.error "Not a valid split direction" := by
  unfold Layout.tryFrom
  split
  all_goals simp_all

/-- Witness for C5 at the concrete input "diagonal". -/
theorem c5_unknown_layout_rejected_witness :
    Layout.tryFrom "diagonal" = Except.error "Not a valid split direction" :=
  c5_unknown_layout_rejected "diagonal" (by decide) (by decide) (by decide)
    (by decide) (by decide)

/-- C6: when any external control operation fails, the render aborts there:
the attempted operations are exactly a prefix of the planned sequence ending
at the first failing operation, every earlier operation succeeded, and
nothing after the failing operation (retry or cleanup) is attempted. -/
theorem c6_failure_aborts_render (s : Session) (fails : Op → Bool)
    (tr : List Op) (h : s.renderE fails [] = .error tr) :
    ∃ pre op post,
      Session.render s = pre ++ op :: post
      ∧ tr = pre ++ [op]
      ∧ fails op = true
      ∧ ∀ o ∈ pre, fails o = false := by
  rw [sessionRenderE_eq_runOps] at h
  obtain ⟨pre, op, post, h1, h2, h3, h4⟩ := runOps_error fails _ [] tr h
  exact ⟨pre, op, post, h1, by simpa using h2, h3, h4⟩

/-- Witness for C6: on a session with no windows and a multiplexer that
rejects kill-window, the render attempts exactly the session creation and
the failing kill, and nothing after. -/
theorem c6_failure_aborts_render_witness :
    ∃ pre op post,
      Session.render ⟨"dev", none, []⟩ = pre ++ op :: post
      ∧ [Op.newSession "dev" INITIAL_WINDOW none,
         Op.killWindow ("dev" ++ ":" ++ INITIAL_WINDOW)] = pre ++ [op]
      ∧ Op.isKillWindow op = true
      ∧ ∀ o ∈ pre, Op.isKillWindow o = false :=
  c6_failure_aborts_render ⟨"dev", none, []⟩ Op.isKillWindow
    [Op.newSession "dev" INITIAL_WINDOW none,
     Op.killWindow ("dev" ++ ":" ++ INITIAL_WINDOW)] rfl

/-- C7: a session with zero windows still renders the full sequence:
session creation carrying the sentinel window, no window creations, then
kill-sentinel, renumber and attach. -/
theorem c7_empty_windows_render (name : String) (root : Option String) :
    Session.render ⟨name, root, []⟩
      = [Op.newSession name INITIAL_WINDOW root,
         Op.killWindow (name ++ ":" ++ INITIAL_WINDOW),
         Op.moveWindowRenumber,
         Op.attach (name ++ ":1")]
    ∧ (Session.render ⟨name, root, []⟩).countP Op.isNewWindow = 0 := by
  constructor
  · rfl
  · simp [Session.render, Session.create, Session.finalize, windowsTrace,
      List.countP_cons, Op.isNewWindow]

/-- C8: the emitted operation sequence is a function of the session value
alone: sessions equal in name, root and windows render to identical
operation sequences. -/
theorem c8_render_deterministic (s t : Session) (hn : s.name = t.name)
    (hr : s.root = t.root) (hw : s.windows = t.windows) :
    Session.render s = Session.render t := by
  cases s
  cases t
  simp only at hn hr hw
  subst hn
  subst hr
  subst hw
  rfl

/-- Witness for C8 at two equal concrete sessions. -/
theorem c8_render_deterministic_witness :
    Session.render sampleSession = Session.render ⟨"dev", none,
      [sampleWindowEdit, sampleWindowRun]⟩ :=
  c8_render_deterministic sampleSession
    ⟨"dev", none, [sampleWindowEdit, sampleWindowRun]⟩ rfl rfl rfl

/-- C9: a window declaring both a top-level command and panes renders
without error and performs both: the command keystrokes are the operation
right after the window creation (index 1, before any pane split or pane
command), the send-keys operations are the window command followed by the
pane commands in order, the splits for the later panes are all emitted,
and the fallible render succeeds when no operation fails. -/
theorem c9_cmd_and_panes_both_rendered (w : Window) (c : String)
    (ps : List Pane) (hc : w.cmd = some c) (hp : w.panes = some ps) :
    w.render[1]? = some (Op.sendKeys c)
    ∧ w.render.filter Op.isSendKeys
        = Op.sendKeys c :: ps.filterMap (fun p => p.cmd.map Op.sendKeys)
    ∧ w.render.countP Op.isSplit = ps.length - 1
    ∧ w.renderE (fun _ => false) [] = .ok w.render := by
  refine ⟨?_, ?_, ?_, ?_⟩
  · simp [Window.render, Window.create, hc]
  · rw [window_render_filter_sendKeys, hc, hp]
    simp
  · rw [window_render_countP_split, Window.numPanes, hp]
    simp
  · rw [windowRenderE_eq_runOps, runOps_all_ok]
    simp

/-- Witness for C9 at a concrete window with both a command and two panes. -/
theorem c9_cmd_and_panes_both_rendered_witness :
    (Window.render ⟨some "run", Layout.Tiled, none, some "vim",
        some [⟨some "ls"⟩, ⟨none⟩]⟩)[1]? = some (Op.sendKeys "vim")
    ∧ (Window.render ⟨some "run", Layout.Tiled, none, some "vim",
        some [⟨some "ls"⟩, ⟨none⟩]⟩).filter Op.isSendKeys
        = Op.sendKeys "vim"
          :: List.filterMap (fun (p : Pane) => p.cmd.map Op.sendKeys)
              [⟨some "ls"⟩, ⟨none⟩]
    ∧ (Window.render ⟨some "run", Layout.Tiled, none, some "vim",
        some [⟨some "ls"⟩, ⟨none⟩]⟩).countP Op.isSplit
        = List.length [(⟨some "ls"⟩ : Pane), ⟨none⟩] - 1
    ∧ Window.renderE (fun _ => false)
        ⟨some "run", Layout.Tiled, none, some "vim",
          some [⟨some "ls"⟩, ⟨none⟩]⟩ []
        = .ok (Window.render ⟨some "run", Layout.Tiled, none, some "vim",
            some [⟨some "ls"⟩, ⟨none⟩]⟩) :=
  c9_cmd_and_panes_both_rendered
    ⟨some "run", Layout.Tiled, none, some "vim", some [⟨some "ls"⟩, ⟨none⟩]⟩
    "vim" [⟨some "ls"⟩, ⟨none⟩] rfl rfl

/-- C10: a window definition that omits the layout field gets the
EvenHorizontal default, and the layout-selection operation such a window
emits carries the string "even-horizontal". -/
theorem c10_default_layout_even_horizontal (w : Window)
    (h : w.layout = Layout.default) :
    decodeLayoutField none = Except.ok Layout.EvenHorizontal
    ∧ w.render.getLast? = some (Op.selectLayout "even-horizontal") := by
  refine ⟨rfl, ?_⟩
  rw [window_render_getLast, h]
  rfl

/-- Witness for C10 at a concrete window carrying the default layout. -/
theorem c10_default_layout_even_horizontal_witness :
    decodeLayoutField none = Except.ok Layout.EvenHorizontal
    ∧ (Window.render ⟨none, Layout.default, none, none, none⟩).getLast?
        = some (Op.selectLayout "even-horizontal") :=
  c10_default_layout_even_horizontal ⟨none, Layout.default, none, none, none⟩
    rfl

end Precession
